import Mathlib

/-!
Shallow embedding of the library-management server core:
the drizzle schema (shared/schema), the `DatabaseStorage` methods
(`src/server/storage.ts`), the Express route handlers that drive them
(`src/server/routes.ts`), and the client-side derived-status function
(`src/client/src/components/UserDashboard.tsx`).

Modelling conventions:
* timestamps are JS epoch milliseconds, modelled as `Int`;
* SQL `decimal` prices are modelled as `ℚ`;
* a SQL `UPDATE ... WHERE` is `updateWhere` (map over all matching rows);
* `serial` primary keys are modelled by `next*Id` counters in the state;
* the `references(...)` foreign-key constraints of the schema are modelled
  as the insert failing (returning `none`, which the route surfaces as a
  500 error) when the referenced row is absent; statements already
  executed before the failing insert keep their effect, since the
  handlers use no transaction.
-/

namespace LibraryHub

/-- Row of the `books` table (shared/schema, src/unnamed/part_003 lines 40-54).
`price` and `rating` are SQL decimals, modelled as `ℚ`; `totalCopies` and
`availableCopies` are SQL integers, modelled as `Int`. -/
structure Book where
  id : Nat
  title : String
  author : String
  isbn : Option String
  category : String
  description : Option String
  coverImageUrl : Option String
  price : ℚ
  totalCopies : Int
  availableCopies : Int
  rating : ℚ
deriving DecidableEq

/-- Row of the `borrowed_books` table (src/unnamed/part_003 lines 56-64).
`status` is a varchar holding "borrowed" or "returned"; `borrowedAt` is
filled by the column default `now()` on insert. -/
structure BorrowedBook where
  id : Nat
  userId : String
  bookId : Nat
  borrowedAt : Int
  dueDate : Int
  returnedAt : Option Int
  status : String
deriving DecidableEq

/-- Row of the `purchases` table (src/unnamed/part_003 lines 66-72). -/
structure Purchase where
  id : Nat
  userId : String
  bookId : Nat
  price : ℚ
  purchasedAt : Int
deriving DecidableEq

/-- The persistent state: the four tables (users reduced to their ids,
which is all the server logic reads) plus the `serial` id counters. -/
structure DB where
  users : List String
  books : List Book
  borrowedBooks : List BorrowedBook
  purchases : List Purchase
  nextBookId : Nat
  nextBorrowId : Nat
  nextPurchaseId : Nat
deriving DecidableEq

/-- SQL `UPDATE ... SET f ... WHERE p`: rewrite every matching row in place. -/
def updateWhere (p : α → Bool) (f : α → α) (l : List α) : List α :=
  l.map (fun x => if p x then f x else x)

/-- `getBookById` (storage.ts lines 80-83): `select from books where id = id`,
returning the first row if any. -/
def getBookById (s : DB) (id : Nat) : Option Book :=
  s.books.find? (fun b => b.id == id)

/-- Payload accepted by `insertBookSchema` (src/unnamed/part_003 lines
108-116): `createInsertSchema(books)` minus `id/createdAt/updatedAt`, with
`isbn/description/coverImageUrl` optional strings.  Columns with a DB
default (`totalCopies`, `availableCopies`, `rating`) are optional in the
insert schema; the schema imposes no range constraint on any field. -/
structure InsertBook where
  title : String
  author : String
  isbn : Option String := none
  category : String
  description : Option String := none
  coverImageUrl : Option String := none
  price : ℚ
  totalCopies : Option Int := none
  availableCopies : Option Int := none
  rating : Option ℚ := none
deriving DecidableEq

/-- `createBook` (storage.ts lines 106-109): a bare `insert into books`.
The only failure mode is the `unique()` constraint on the nullable `isbn`
column (schema line 44): inserting a non-null isbn equal to an existing
book's isbn throws, which the route reports as a generic 500 error.
Absent columns take the schema defaults: `totalCopies` 1,
`availableCopies` 1, `rating` 0. -/
def createBook (s : DB) (book : InsertBook) : DB × Option Book :=
  let collision := match book.isbn with
    | some i => s.books.any (fun b => b.isbn == some i)
    | none => false
  if collision then (s, none)
  else
    let newBook : Book :=
      { id := s.nextBookId
        title := book.title
        author := book.author
        isbn := book.isbn
        category := book.category
        description := book.description
        coverImageUrl := book.coverImageUrl
        price := book.price
        totalCopies := book.totalCopies.getD 1
        availableCopies := book.availableCopies.getD 1
        rating := book.rating.getD 0 }
    ({ s with books := s.books ++ [newBook], nextBookId := s.nextBookId + 1 },
      some newBook)

/-- `borrowBook` (storage.ts lines 125-143): first an unconditional
`update books set availableCopies = availableCopies - 1 where id = bookId`
(no availability check at this layer), then `insert into borrowed_books`
with status defaulting to "borrowed" and `borrowedAt` defaulting to now.
The insert is subject to the foreign keys on `userId` and `bookId`
(schema lines 58-59); if it fails the earlier decrement is NOT rolled
back (there is no transaction). -/
def borrowBook (s : DB) (userId : String) (bookId : Nat) (dueDate now : Int) :
    DB × Option BorrowedBook :=
  let s1 := { s with
    books := updateWhere (fun b => b.id == bookId)
      (fun b => { b with availableCopies := b.availableCopies - 1 }) s.books }
  if s1.users.contains userId && s1.books.any (fun b => b.id == bookId) then
    let loan : BorrowedBook :=
      { id := s1.nextBorrowId
        userId := userId
        bookId := bookId
        borrowedAt := now
        dueDate := dueDate
        returnedAt := none
        status := "borrowed" }
    ({ s1 with
        borrowedBooks := s1.borrowedBooks ++ [loan]
        nextBorrowId := s1.nextBorrowId + 1 },
      some loan)
  else (s1, none)

/-- `returnBook` (storage.ts lines 164-189): look the loan row up by id;
if absent, do nothing (no error).  If present — with NO check of its
status — set status := "returned" and returnedAt := now, and increment
the availableCopies of the book the loan references. -/
def returnBook (s : DB) (borrowId : Nat) (now : Int) : DB :=
  match s.borrowedBooks.find? (fun l => l.id == borrowId) with
  | none => s
  | some borrowed =>
    { s with
      borrowedBooks := updateWhere (fun l => l.id == borrowId)
        (fun l => { l with status := "returned", returnedAt := some now })
        s.borrowedBooks
      books := updateWhere (fun b => b.id == borrowed.bookId)
        (fun b => { b with availableCopies := b.availableCopies + 1 })
        s.books }

/-- `renewBook` (storage.ts lines 191-196): a single unconditional
`update borrowed_books set dueDate = newDueDate where id = borrowId`.
No existence, status or date-comparison check; an unknown id updates
zero rows and is a silent no-op. -/
def renewBook (s : DB) (borrowId : Nat) (newDueDate : Int) : DB :=
  { s with
    borrowedBooks := updateWhere (fun l => l.id == borrowId)
      (fun l => { l with dueDate := newDueDate }) s.borrowedBooks }

/-- `purchaseBook` (storage.ts lines 218-228): a bare
`insert into purchases` storing exactly the `price` argument it is
handed.  The insert is subject to the foreign keys on `userId` and
`bookId` (schema lines 68-69). -/
def purchaseBook (s : DB) (userId : String) (bookId : Nat) (price : ℚ)
    (now : Int) : DB × Option Purchase :=
  if s.users.contains userId && s.books.any (fun b => b.id == bookId) then
    let p : Purchase :=
      { id := s.nextPurchaseId
        userId := userId
        bookId := bookId
        price := price
        purchasedAt := now }
    ({ s with
        purchases := s.purchases ++ [p]
        nextPurchaseId := s.nextPurchaseId + 1 },
      some p)
  else (s, none)

/-- `getTotalBooks` (storage.ts lines 245-248): row count of `books`. -/
def getTotalBooks (s : DB) : Nat := s.books.length

/-- `getTotalUsers` (storage.ts lines 250-253): row count of `users`. -/
def getTotalUsers (s : DB) : Nat := s.users.length

/-- `getTotalBorrowedToday` (storage.ts lines 255-263): computes a
`today` midnight value but the `borrowedAt >= today` condition is only a
comment in the source (line 260), so the count is over ALL rows of
`borrowed_books`, whatever their date. -/
def getTotalBorrowedToday (s : DB) : Nat := s.borrowedBooks.length

/-- `getTotalOverdue` (storage.ts lines 265-275): counts rows with
status = "borrowed"; the `dueDate < now` condition is only a comment in
the source (line 271), so every un-returned loan is counted overdue. -/
def getTotalOverdue (s : DB) : Nat :=
  (s.borrowedBooks.filter (fun l => l.status == "borrowed")).length

/-- `getTotalRevenueToday` (storage.ts lines 277-282): the source returns
the hard-coded placeholder `1847` and never reads the purchases table. -/
def getTotalRevenueToday (_s : DB) : ℚ := 1847

/-- Response of `GET /api/admin/stats` (routes.ts lines 200-228). -/
structure AdminStats where
  totalBooks : Nat
  totalUsers : Nat
  borrowedToday : Nat
  overdue : Nat
  revenueToday : ℚ
deriving DecidableEq

/-- The stats aggregation performed by `GET /api/admin/stats`
(routes.ts lines 209-223). -/
def getAdminStats (s : DB) : AdminStats :=
  { totalBooks := getTotalBooks s
    totalUsers := getTotalUsers s
    borrowedToday := getTotalBorrowedToday s
    overdue := getTotalOverdue s
    revenueToday := getTotalRevenueToday s }

/-- Outcome of `POST /api/borrow`: 200 with the loan, 400
"Book not available for borrowing", or 500 "Failed to borrow book". -/
inductive BorrowResult where
  | ok (loan : BorrowedBook)
  | notAvailable
  | serverError
deriving DecidableEq

/-- `POST /api/borrow` (routes.ts lines 122-138): reject with 400 when
`getBookById` finds no book or the book's availableCopies === 0;
otherwise call `storage.borrowBook`.  NOTE: no check for an existing
borrowed-status loan of the same (user, book) pair exists anywhere. -/
def postBorrow (s : DB) (userId : String) (bookId : Nat) (dueDate now : Int) :
    DB × BorrowResult :=
  match getBookById s bookId with
  | none => (s, .notAvailable)
  | some book =>
    if book.availableCopies == 0 then (s, .notAvailable)
    else
      match borrowBook s userId bookId dueDate now with
      | (s1, some loan) => (s1, .ok loan)
      | (s1, none) => (s1, .serverError)

/-- `POST /api/return/:id` (routes.ts lines 151-160): calls
`storage.returnBook` and always answers 200 "Book returned successfully"
(returnBook never throws). -/
def postReturn (s : DB) (borrowId : Nat) (now : Int) : DB × String :=
  (returnBook s borrowId now, "Book returned successfully")

/-- `POST /api/renew/:id` (routes.ts lines 162-172): calls
`storage.renewBook` and always answers 200 "Book renewed successfully"
(renewBook never throws). -/
def postRenew (s : DB) (borrowId : Nat) (newDueDate : Int) : DB × String :=
  (renewBook s borrowId newDueDate, "Book renewed successfully")

/-- Outcome of `POST /api/purchase`: 200 with the purchase, or 500
"Failed to purchase book" when the insert throws. -/
inductive PurchaseResult where
  | ok (p : Purchase)
  | serverError
deriving DecidableEq

/-- `POST /api/purchase` (routes.ts lines 175-186): reads `bookId` and
`price` from the request body — the caller supplies the price — and
passes them straight to `storage.purchaseBook`. -/
def postPurchase (s : DB) (userId : String) (bookId : Nat) (price : ℚ)
    (now : Int) : DB × PurchaseResult :=
  match purchaseBook s userId bookId price now with
  | (s1, some p) => (s1, .ok p)
  | (s1, none) => (s1, .serverError)

/-- Milliseconds per day, `1000 * 3600 * 24` as in UserDashboard.tsx line 63. -/
def msPerDay : Int := 1000 * 3600 * 24

/-- `diffDays` of `getStatus` (UserDashboard.tsx line 63):
`Math.ceil((due.getTime() - now.getTime()) / (1000 * 3600 * 24))`,
the JS real-number arithmetic modelled exactly over `ℚ`. -/
def daysRemaining (dueDate now : Int) : Int :=
  ⌈((dueDate - now : Int) : ℚ) / ((msPerDay : Int) : ℚ)⌉

/-- `getStatus` (UserDashboard.tsx lines 60-72), the derived loan status
shown on the dashboard (the badge colour the source pairs with each text
is dropped). -/
def getStatus (dueDate now : Int) : String :=
  if daysRemaining dueDate now < 0 then "Overdue"
  else if daysRemaining dueDate now ≤ 3 then "Due Soon"
  else "On Time"

/-- A client-visible mutation step of the borrow/return lifecycle:
one request to `POST /api/borrow` or `POST /api/return/:id`. -/
inductive Op where
  | borrow (userId : String) (bookId : Nat) (dueDate now : Int)
  | ret (borrowId : Nat) (now : Int)

/-- State reached after one operation (the route's response is dropped). -/
def applyOp (s : DB) : Op → DB
  | .borrow u b d n => (postBorrow s u b d n).1
  | .ret i n => (postReturn s i n).1

/-- State reached after a sequence of borrow/return operations. -/
def applyOps (s : DB) : List Op → DB
  | [] => s
  | op :: ops => applyOps (applyOp s op) ops

/-- Lower-bound part of the copy-count invariant: no book's
availableCopies is negative. -/
def copiesNonneg (s : DB) : Prop := ∀ b ∈ s.books, 0 ≤ b.availableCopies

/-- Primary-key well-formedness of the books table: ids are pairwise
distinct (the `serial` primary key guarantees this in the real DB). -/
def booksNodup (s : DB) : Prop := (s.books.map (fun b => b.id)).Nodup

section Lemmas

variable {α : Type _} {β : Type _}

/-- Membership in an updated table comes from a row of the old table,
either rewritten (if it matched) or untouched. -/
theorem mem_updateWhere {p : α → Bool} {f : α → α} {l : List α} {b : α}
    (hb : b ∈ updateWhere p f l) : ∃ a ∈ l, b = if p a then f a else a := by
  unfold updateWhere at hb
  rcases List.mem_map.mp hb with ⟨a, ha, h⟩
  exact ⟨a, ha, h.symm⟩

/-- An update that preserves a projection `g` of each row leaves the
`g`-image of the table unchanged (e.g. updates never change primary keys). -/
theorem updateWhere_map_eq {p : α → Bool} {f : α → α} (g : α → β)
    (hg : ∀ x, g (f x) = g x) (l : List α) :
    (updateWhere p f l).map g = l.map g := by
  induction l with
  | nil => rfl
  | cons a t ih =>
    unfold updateWhere at *
    simp only [List.map_cons, ih]
    by_cases h : p a
    · rw [if_pos h, hg]
    · rw [if_neg h]

/-- Row lookup after an update that preserves the lookup predicate:
the found row is the rewritten old row. -/
theorem find?_updateWhere (p : α → Bool) (f : α → α)
    (h : ∀ x, p (f x) = p x) (l : List α) :
    (updateWhere p f l).find? p = (l.find? p).map f := by
  induction l with
  | nil => rfl
  | cons a t ih =>
    unfold updateWhere at *
    simp only [List.map_cons]
    by_cases hp : p a
    · rw [if_pos hp, List.find?_cons_of_pos _ (by rw [h a]; exact hp),
        List.find?_cons_of_pos _ hp, Option.map_some']
    · rw [if_neg hp, List.find?_cons_of_neg _ hp, List.find?_cons_of_neg _ hp]
      exact ih

/-- An update preserving a predicate `p` of each row preserves whether any
row satisfies `p` (e.g. copy-count updates keep every id present). -/
theorem any_updateWhere (p q : α → Bool) (f : α → α)
    (h : ∀ x, p (f x) = p x) (l : List α) :
    (updateWhere q f l).any p = l.any p := by
  induction l with
  | nil => rfl
  | cons a t ih =>
    unfold updateWhere at *
    simp only [List.map_cons, List.any_cons, ih]
    by_cases hq : q a
    · rw [if_pos hq, h a]
    · rw [if_neg hq]

/-- An update whose WHERE clause matches no row leaves the table as it was. -/
theorem updateWhere_no_match {p : α → Bool} {f : α → α} {l : List α}
    (h : ∀ x ∈ l, ¬ p x) : updateWhere p f l = l := by
  induction l with
  | nil => rfl
  | cons a t ih =>
    unfold updateWhere at *
    simp only [List.map_cons]
    rw [if_neg (h a (List.mem_cons_self a t)),
      ih (fun x hx => h x (List.mem_cons_of_mem a hx))]

end Lemmas

/-- Shape of `returnBook` when the loan row is found: both updates run,
with no inspection of the loan's current status. -/
theorem returnBook_found (s : DB) (i : Nat) (n : Int) (l : BorrowedBook)
    (hl : s.borrowedBooks.find? (fun x => x.id == i) = some l) :
    returnBook s i n = { s with
      borrowedBooks := updateWhere (fun x => x.id == i)
        (fun x => { x with status := "returned", returnedAt := some n })
        s.borrowedBooks
      books := updateWhere (fun x => x.id == l.bookId)
        (fun x => { x with availableCopies := x.availableCopies + 1 })
        s.books } := by
  unfold returnBook
  rw [hl]

/-! ### C6 — derived loan status -/

/-- A dueDate a whole number of days away yields exactly that day count. -/
theorem daysRemaining_add_mul (now k : Int) :
    daysRemaining (now + k * msPerDay) now = k := by
  unfold daysRemaining
  have h1 : ((now + k * msPerDay - now : Int) : ℚ)
      = (k : ℚ) * ((msPerDay : Int) : ℚ) := by
    push_cast
    ring
  rw [h1, mul_div_assoc,
    div_self (by norm_num [msPerDay] : ((msPerDay : Int) : ℚ) ≠ 0),
    mul_one, Int.ceil_intCast]

/-- The Overdue branch of `getStatus` is taken exactly below zero days. -/
theorem getStatus_overdue_iff (dd now : Int) :
    getStatus dd now = "Overdue" ↔ daysRemaining dd now < 0 := by
  unfold getStatus
  split_ifs with h1 h2
  · exact ⟨fun _ => h1, fun _ => rfl⟩
  · exact ⟨fun h => absurd h (by decide), fun h => absurd h h1⟩
  · exact ⟨fun h => absurd h (by decide), fun h => absurd h h1⟩

/-- The Due Soon branch of `getStatus` is taken exactly on 0..3 days. -/
theorem getStatus_dueSoon_iff (dd now : Int) :
    getStatus dd now = "Due Soon" ↔
      0 ≤ daysRemaining dd now ∧ daysRemaining dd now ≤ 3 := by
  unfold getStatus
  split_ifs with h1 h2
  · exact ⟨fun h => absurd h (by decide), fun h => absurd h1 (by omega)⟩
  · exact ⟨fun _ => ⟨by omega, h2⟩, fun _ => rfl⟩
  · exact ⟨fun h => absurd h (by decide), fun h => absurd h2 (by omega)⟩

/-- The On Time branch of `getStatus` is taken exactly above 3 days. -/
theorem getStatus_onTime_iff (dd now : Int) :
    getStatus dd now = "On Time" ↔ 3 < daysRemaining dd now := by
  unfold getStatus
  split_ifs with h1 h2
  · exact ⟨fun h => absurd h (by decide), fun h => absurd h1 (by omega)⟩
  · exact ⟨fun h => absurd h (by decide), fun h => absurd h2 (by omega)⟩
  · exact ⟨fun _ => by omega, fun _ => rfl⟩

/-- C6: the derived loan status is a deterministic pure function of
dueDate and now: with daysRemaining = ceil((dueDate − now) / 1 day), the
status is "Overdue" iff daysRemaining < 0, "Due Soon" iff
0 ≤ daysRemaining ≤ 3, and "On Time" otherwise; in particular
dueDate = now − 1 day gives Overdue, now + 2 days gives Due Soon, and
now + 10 days gives On Time. -/
theorem getStatus_characterization (dd now : Int) :
    (getStatus dd now = "Overdue" ↔ daysRemaining dd now < 0) ∧
    (getStatus dd now = "Due Soon" ↔
      0 ≤ daysRemaining dd now ∧ daysRemaining dd now ≤ 3) ∧
    (getStatus dd now = "On Time" ↔ 3 < daysRemaining dd now) ∧
    getStatus (now - msPerDay) now = "Overdue" ∧
    getStatus (now + 2 * msPerDay) now = "Due Soon" ∧
    getStatus (now + 10 * msPerDay) now = "On Time" := by
  have hm1 : daysRemaining (now - msPerDay) now = -1 := by
    have h : now - msPerDay = now + (-1) * msPerDay := by ring
    rw [h, daysRemaining_add_mul]
  have h2 : daysRemaining (now + 2 * msPerDay) now = 2 := daysRemaining_add_mul now 2
  have h10 : daysRemaining (now + 10 * msPerDay) now = 10 := daysRemaining_add_mul now 10
  refine ⟨getStatus_overdue_iff dd now, getStatus_dueSoon_iff dd now,
    getStatus_onTime_iff dd now, ?_, ?_, ?_⟩
  · rw [getStatus_overdue_iff, hm1]
    decide
  · rw [getStatus_dueSoon_iff, h2]
    exact ⟨by decide, by decide⟩
  · rw [getStatus_onTime_iff, h10]
    decide

/-! ### C10 — return of an unknown loan id -/

/-- C10: for a borrowId matching no loan record, the return route
completes with its usual success response and leaves the whole state
(every book and every loan) unchanged: a silent no-op. -/
theorem postReturn_unknown_id_noop (s : DB) (borrowId : Nat) (now : Int)
    (h : ∀ l ∈ s.borrowedBooks, l.id ≠ borrowId) :
    postReturn s borrowId now = (s, "Book returned successfully") := by
  unfold postReturn returnBook
  have hf : s.borrowedBooks.find? (fun l => l.id == borrowId) = none := by
    apply List.find?_eq_none.mpr
    intro l hl
    simp only [beq_iff_eq]
    exact h l hl
  rw [hf]

/-- Concrete book row for test fixtures: only the copy counts, price and
id vary in the scenarios below. -/
def mkBook (id : Nat) (price : ℚ) (total avail : Int) : Book :=
  { id := id
    title := "T"
    author := "A"
    isbn := none
    category := "c"
    description := none
    coverImageUrl := none
    price := price
    totalCopies := total
    availableCopies := avail
    rating := 0 }

/-- Concrete loan row for test fixtures. -/
def mkLoan (id : Nat) (userId : String) (bookId : Nat)
    (borrowedAt dueDate : Int) (returnedAt : Option Int) (status : String) :
    BorrowedBook :=
  { id := id
    userId := userId
    bookId := bookId
    borrowedAt := borrowedAt
    dueDate := dueDate
    returnedAt := returnedAt
    status := status }

/-- Concrete purchase row as inserted by `purchaseBook`. -/
def mkPurchase (id : Nat) (u : String) (bid : Nat) (price : ℚ) (n : Int) :
    Purchase :=
  { id := id
    userId := u
    bookId := bid
    price := price
    purchasedAt := n }

/-- State used to witness C10: one book, one loan with id 1. -/
def c10State : DB :=
  { users := ["u"]
    books := [mkBook 1 10 1 0]
    borrowedBooks := [mkLoan 1 "u" 1 0 100 none "borrowed"]
    purchases := []
    nextBookId := 2
    nextBorrowId := 2
    nextPurchaseId := 1 }

/-- Witness for C10: returning id 7, which no loan has, changes nothing. -/
theorem postReturn_unknown_id_noop_witness :
    postReturn c10State 7 42 = (c10State, "Book returned successfully") :=
  postReturn_unknown_id_noop c10State 7 42 (by decide)

/-! ### C4 — borrowing an unavailable or unknown book -/

/-- C4: when the requested book does not exist or has availableCopies 0,
the borrow route answers with its 400 "not available" rejection and the
state is untouched: no loan row is created and no copy count changes. -/
theorem postBorrow_rejects_unavailable (s : DB) (userId : String)
    (bookId : Nat) (dueDate now : Int)
    (h : getBookById s bookId = none ∨
      ∃ b, getBookById s bookId = some b ∧ b.availableCopies = 0) :
    postBorrow s userId bookId dueDate now = (s, BorrowResult.notAvailable) := by
  unfold postBorrow
  rcases h with h | ⟨b, hb, h0⟩
  · rw [h]
  · rw [hb]
    simp [h0]

/-- State used to witness C4: book 1 has zero available copies. -/
def c4State : DB :=
  { users := ["u"]
    books := [mkBook 1 10 2 0]
    borrowedBooks := []
    purchases := []
    nextBookId := 2
    nextBorrowId := 1
    nextPurchaseId := 1 }

/-- Witness for C4: borrowing book 1 (zero copies) and borrowing the
unknown book 9 are both rejected without any state change. -/
theorem postBorrow_rejects_unavailable_witness :
    postBorrow c4State "u" 1 100 0 = (c4State, BorrowResult.notAvailable) ∧
    postBorrow c4State "u" 9 100 0 = (c4State, BorrowResult.notAvailable) :=
  ⟨postBorrow_rejects_unavailable c4State "u" 1 100 0
      (Or.inr ⟨mkBook 1 10 2 0, rfl, rfl⟩),
    postBorrow_rejects_unavailable c4State "u" 9 100 0 (Or.inl rfl)⟩

/-! ### C5 — renew -/

/-- C5 (amended): the renew route performs no validation at all: it
always answers success, never touches any book (so availableCopies is
untouched), sets the matched loan's dueDate to the requested value
whatever its relation to the current dueDate and whatever the loan's
status (status and all other fields unchanged), and for an unknown loan
id it is a silent no-op rather than a NotFoundError. -/
theorem postRenew_unconditional (s : DB) (i : Nat) (d : Int) :
    ((postRenew s i d).1.books = s.books) ∧
    ((postRenew s i d).2 = "Book renewed successfully") ∧
    (∀ l, s.borrowedBooks.find? (fun x => x.id == i) = some l →
      (postRenew s i d).1.borrowedBooks.find? (fun x => x.id == i) =
        some { l with dueDate := d }) ∧
    ((∀ l ∈ s.borrowedBooks, l.id ≠ i) → (postRenew s i d).1 = s) := by
  refine ⟨rfl, rfl, ?_, ?_⟩
  · intro l hl
    have key := find?_updateWhere (fun x : BorrowedBook => x.id == i)
      (fun x => { x with dueDate := d }) (fun x => rfl) s.borrowedBooks
    have e : (postRenew s i d).1.borrowedBooks =
        updateWhere (fun x : BorrowedBook => x.id == i)
          (fun x => { x with dueDate := d }) s.borrowedBooks := rfl
    rw [e, key, hl, Option.map_some']
  · intro h
    have e2 : updateWhere (fun x : BorrowedBook => x.id == i)
        (fun x => { x with dueDate := d }) s.borrowedBooks
          = s.borrowedBooks :=
      updateWhere_no_match (fun x hx => by
        simp only [beq_iff_eq]
        exact h x hx)
    show renewBook s i d = s
    unfold renewBook
    rw [e2]

/-- State used for C5: loan 1 still borrowed with dueDate 100, loan 2
already returned. -/
def c5State : DB :=
  { users := ["u"]
    books := [mkBook 1 10 1 1]
    borrowedBooks := [mkLoan 1 "u" 1 0 100 none "borrowed",
      mkLoan 2 "u" 1 0 100 (some 50) "returned"]
    purchases := []
    nextBookId := 2
    nextBorrowId := 3
    nextPurchaseId := 1 }

/-- Counterexample to C5 as stated: renewing loan 1 with dueDate 50,
EARLIER than its current dueDate 100, succeeds and rewinds the dueDate;
renewing the unknown id 99 answers success and changes nothing (no
NotFoundError); renewing the already-returned loan 2 succeeds and sets
its dueDate (no StateError). -/
theorem renew_accepts_any_date_and_state :
    ((postRenew c5State 1 50).1.borrowedBooks.map (fun l => l.dueDate)
      = [50, 100]) ∧
    ((postRenew c5State 1 50).2 = "Book renewed successfully") ∧
    (postRenew c5State 99 777 = (c5State, "Book renewed successfully")) ∧
    ((postRenew c5State 2 200).1.borrowedBooks.map
        (fun l => (l.status, l.dueDate))
      = [("borrowed", 100), ("returned", 200)]) :=
  ⟨rfl, rfl, rfl, rfl⟩

/-- Witness for the amended C5 theorem at a concrete state. -/
theorem postRenew_unconditional_witness :
    (postRenew c5State 1 50).1.books = c5State.books ∧
    (postRenew c5State 1 50).1.borrowedBooks.find? (fun x => x.id == 1) =
      some { mkLoan 1 "u" 1 0 100 none "borrowed" with dueDate := 50 } :=
  ⟨(postRenew_unconditional c5State 1 50).1,
    (postRenew_unconditional c5State 1 50).2.2.1
      (mkLoan 1 "u" 1 0 100 none "borrowed") rfl⟩

/-! ### C2 — returning a loan -/

/-- C2 (amended): a first return of a borrowed loan increments the
referenced book's availableCopies by exactly 1 and marks the loan
returned with returnedAt set; but a second return of the same loan does
NOT fail — there is no status check, so it answers the same success
message and increments availableCopies a second time. -/
theorem returnBook_first_and_second_increment (s : DB) (i : Nat)
    (n n2 : Int) (l : BorrowedBook) (b : Book)
    (_hst : l.status = "borrowed")
    (hl : s.borrowedBooks.find? (fun x => x.id == i) = some l)
    (hb : s.books.find? (fun x => x.id == l.bookId) = some b) :
    ((returnBook s i n).borrowedBooks.find? (fun x => x.id == i) =
      some { l with status := "returned", returnedAt := some n }) ∧
    ((returnBook s i n).books.find? (fun x => x.id == l.bookId) =
      some { b with availableCopies := b.availableCopies + 1 }) ∧
    ((returnBook (returnBook s i n) i n2).books.find?
        (fun x => x.id == l.bookId) =
      some { b with availableCopies := b.availableCopies + 1 + 1 }) ∧
    (postReturn (returnBook s i n) i n2).2 = "Book returned successfully" := by
  have h1 := returnBook_found s i n l hl
  have keyL := find?_updateWhere (fun x : BorrowedBook => x.id == i)
    (fun x => { x with status := "returned", returnedAt := some n })
    (fun x => rfl) s.borrowedBooks
  have keyB := find?_updateWhere (fun x : Book => x.id == l.bookId)
    (fun x => { x with availableCopies := x.availableCopies + 1 })
    (fun x => rfl) s.books
  have hLoans : (returnBook s i n).borrowedBooks.find? (fun x => x.id == i) =
      some { l with status := "returned", returnedAt := some n } := by
    rw [h1]
    rw [keyL, hl, Option.map_some']
  have hBooks : (returnBook s i n).books.find? (fun x => x.id == l.bookId) =
      some { b with availableCopies := b.availableCopies + 1 } := by
    rw [h1]
    rw [keyB, hb, Option.map_some']
  have h2 := returnBook_found (returnBook s i n) i n2
    { l with status := "returned", returnedAt := some n } hLoans
  have keyB2 := find?_updateWhere (fun x : Book => x.id == l.bookId)
    (fun x => { x with availableCopies := x.availableCopies + 1 })
    (fun x => rfl) (returnBook s i n).books
  refine ⟨hLoans, hBooks, ?_, rfl⟩
  rw [h2]
  rw [keyB2, hBooks, Option.map_some']

/-- State used for C2: the single copy of book 1 is out on loan 1. -/
def c2State : DB :=
  { users := ["u"]
    books := [mkBook 1 10 1 0]
    borrowedBooks := [mkLoan 1 "u" 1 0 100 none "borrowed"]
    purchases := []
    nextBookId := 2
    nextBorrowId := 2
    nextPurchaseId := 1 }

/-- Counterexample to C2 as stated: after the first return of loan 1
(availableCopies 0 → 1, status returned), a SECOND return of the same
loan is answered with the same success message and drives
availableCopies to 2 — it neither fails nor leaves the count unchanged. -/
theorem second_return_succeeds_and_double_increments :
    ((postReturn c2State 1 10).1.books.map (fun b => b.availableCopies)
      = [1]) ∧
    ((postReturn c2State 1 10).1.borrowedBooks.map
        (fun l => (l.status, l.returnedAt)) = [("returned", some 10)]) ∧
    ((postReturn (postReturn c2State 1 10).1 1 20).1.books.map
        (fun b => b.availableCopies) = [2]) ∧
    ((postReturn (postReturn c2State 1 10).1 1 20).2
      = "Book returned successfully") :=
  ⟨rfl, rfl, rfl, rfl⟩

/-- Witness for the amended C2 theorem at a concrete state. -/
theorem returnBook_first_and_second_increment_witness :
    ((returnBook c2State 1 10).books.find? (fun x => x.id == 1) =
      some { mkBook 1 10 1 0 with
        availableCopies := (mkBook 1 10 1 0).availableCopies + 1 }) ∧
    ((returnBook (returnBook c2State 1 10) 1 20).books.find?
        (fun x => x.id == 1) =
      some { mkBook 1 10 1 0 with
        availableCopies := (mkBook 1 10 1 0).availableCopies + 1 + 1 }) :=
  ⟨(returnBook_first_and_second_increment c2State 1 10 20
      (mkLoan 1 "u" 1 0 100 none "borrowed") (mkBook 1 10 1 0)
      rfl rfl rfl).2.1,
    (returnBook_first_and_second_increment c2State 1 10 20
      (mkLoan 1 "u" 1 0 100 none "borrowed") (mkBook 1 10 1 0)
      rfl rfl rfl).2.2.1⟩

/-! ### C7 — purchase -/

/-- C7 (amended): a purchase fails (foreign-key violation surfaced as
the route's 500 error) when the referenced book does not exist, and it
never modifies any book row (so no copy count changes); but on success
the Purchase record stores the price supplied by the caller in the
request body — the book's stored price is never read. -/
theorem postPurchase_records_caller_price (s : DB) (u : String) (bid : Nat)
    (price : ℚ) (n : Int) :
    ((postPurchase s u bid price n).1.books = s.books) ∧
    ((∀ b ∈ s.books, b.id ≠ bid) →
      postPurchase s u bid price n = (s, PurchaseResult.serverError)) ∧
    (s.users.contains u = true → s.books.any (fun b => b.id == bid) = true →
      postPurchase s u bid price n =
        ({ s with
            purchases := s.purchases ++ [mkPurchase s.nextPurchaseId u bid price n]
            nextPurchaseId := s.nextPurchaseId + 1 },
          PurchaseResult.ok (mkPurchase s.nextPurchaseId u bid price n))) := by
  refine ⟨?_, ?_, ?_⟩
  · unfold postPurchase purchaseBook
    by_cases hc : (s.users.contains u && s.books.any (fun b => b.id == bid)) = true
    · rw [if_pos hc]
    · rw [if_neg hc]
  · intro h
    have hany : s.books.any (fun b => b.id == bid) = false := by
      rw [List.any_eq_false]
      intro b hbmem
      simp only [beq_iff_eq]
      exact h b hbmem
    unfold postPurchase purchaseBook
    rw [hany, Bool.and_false, if_neg (by simp)]
  · intro hu hany
    unfold postPurchase purchaseBook
    rw [if_pos (by rw [hu, hany]; rfl)]
    rfl

/-- State used for C7: book 1 exists with stored price 10. -/
def c7State : DB :=
  { users := ["u"]
    books := [mkBook 1 10 3 3]
    borrowedBooks := []
    purchases := []
    nextBookId := 2
    nextBorrowId := 1
    nextPurchaseId := 1 }

/-- Counterexample to C7 as stated: the stored price of book 1 is 10,
yet a purchase whose request body carries price 0 succeeds and records
price 0 — the server does not capture the book's current price. -/
theorem purchase_stores_request_price_not_book_price :
    ((postPurchase c7State "u" 1 0 5).1.purchases.map (fun p => p.price)
      = [0]) ∧
    (c7State.books.map (fun b => b.price) = [10]) ∧
    ((0 : ℚ) ≠ 10) ∧
    ((postPurchase c7State "u" 1 0 5).2 = PurchaseResult.ok
      { id := 1, userId := "u", bookId := 1, price := 0, purchasedAt := 5 }) :=
  ⟨rfl, rfl, by norm_num, rfl⟩

/-- Witness for the amended C7 theorem: purchasing the unknown book 9
fails with the 500 path and changes nothing. -/
theorem postPurchase_records_caller_price_witness :
    postPurchase c7State "u" 9 7 5 = (c7State, PurchaseResult.serverError) :=
  (postPurchase_records_caller_price c7State "u" 9 7 5).2.1 (by decide)

/-! ### C3 — borrowing the same book twice -/

/-- Shape of `borrowBook` when both foreign keys of the loan insert are
satisfied: the copy count is decremented and a fresh borrowed-status
loan row is appended — with no look at any existing loan. -/
theorem borrowBook_success (s : DB) (u : String) (bid : Nat) (d n : Int)
    (hu : s.users.contains u = true)
    (hex : s.books.any (fun b => b.id == bid) = true) :
    borrowBook s u bid d n =
      ({ s with
          books := updateWhere (fun b => b.id == bid)
            (fun b => { b with availableCopies := b.availableCopies - 1 })
            s.books
          borrowedBooks := s.borrowedBooks ++
            [mkLoan s.nextBorrowId u bid n d none "borrowed"]
          nextBorrowId := s.nextBorrowId + 1 },
        some (mkLoan s.nextBorrowId u bid n d none "borrowed")) := by
  have hany : (updateWhere (fun b : Book => b.id == bid)
      (fun b => { b with availableCopies := b.availableCopies - 1 })
      s.books).any (fun b => b.id == bid) = true := by
    rw [any_updateWhere (fun b : Book => b.id == bid)
      (fun b : Book => b.id == bid)
      (fun b => { b with availableCopies := b.availableCopies - 1 })
      (fun x => rfl) s.books]
    exact hex
  unfold borrowBook
  dsimp only
  rw [if_pos (by rw [hu, hany]; rfl)]
  rfl

/-- C3 (amended): nothing checks for an existing borrowed-status loan of
the same (user, book) pair: whenever the book is present with a nonzero
availableCopies, a second borrow by the same user succeeds, appends a
fresh borrowed-status loan row, and at least two borrowed-status loans
for that pair then coexist. -/
theorem postBorrow_allows_second_borrow (s : DB) (u : String) (bid : Nat)
    (d n : Int) (bk : Book) (l0 : BorrowedBook)
    (hu : s.users.contains u = true)
    (hbk : getBookById s bid = some bk)
    (h0 : ¬ bk.availableCopies = 0)
    (hl0 : l0 ∈ s.borrowedBooks)
    (hl0u : l0.userId = u) (hl0b : l0.bookId = bid)
    (hl0s : l0.status = "borrowed") :
    ((postBorrow s u bid d n).2
      = BorrowResult.ok (mkLoan s.nextBorrowId u bid n d none "borrowed")) ∧
    ((postBorrow s u bid d n).1.borrowedBooks
      = s.borrowedBooks ++ [mkLoan s.nextBorrowId u bid n d none "borrowed"]) ∧
    (2 ≤ (postBorrow s u bid d n).1.borrowedBooks.countP
      (fun x => x.userId == u && x.bookId == bid && x.status == "borrowed")) := by
  have hbk2 : s.books.find? (fun b => b.id == bid) = some bk := hbk
  have hex : s.books.any (fun b => b.id == bid) = true := by
    have hmem := List.mem_of_find?_eq_some hbk2
    have hp := List.find?_some hbk2
    simp only [List.any_eq_true]
    exact ⟨bk, hmem, hp⟩
  have hne : ¬ ((bk.availableCopies == 0) = true) := by
    simpa using h0
  have hpost : postBorrow s u bid d n =
      ((borrowBook s u bid d n).1, BorrowResult.ok
        (mkLoan s.nextBorrowId u bid n d none "borrowed")) := by
    unfold postBorrow
    rw [hbk]
    dsimp only
    rw [if_neg hne, borrowBook_success s u bid d n hu hex]
  have hloans : (postBorrow s u bid d n).1.borrowedBooks
      = s.borrowedBooks ++ [mkLoan s.nextBorrowId u bid n d none "borrowed"] := by
    rw [hpost, borrowBook_success s u bid d n hu hex]
  refine ⟨by rw [hpost], hloans, ?_⟩
  rw [hloans, List.countP_append]
  have h1 : 0 < s.borrowedBooks.countP
      (fun x => x.userId == u && x.bookId == bid && x.status == "borrowed") :=
    List.countP_pos_iff.mpr ⟨l0, hl0, by simp [hl0u, hl0b, hl0s]⟩
  have h2 : (List.countP
      (fun x => x.userId == u && x.bookId == bid && x.status == "borrowed")
      [mkLoan s.nextBorrowId u bid n d none "borrowed"]) = 1 := by
    simp [List.countP_cons, mkLoan]
  omega

/-- State used for C3: two copies of book 1, no loans yet. -/
def c3State : DB :=
  { users := ["u"]
    books := [mkBook 1 10 2 2]
    borrowedBooks := []
    purchases := []
    nextBookId := 2
    nextBorrowId := 1
    nextPurchaseId := 1 }

/-- Counterexample to C3 as stated: user "u" borrows book 1, then
borrows the SAME book again before returning it; the second request is
answered 200 with a fresh loan — no ConflictError — and afterwards two
borrowed-status loans for the pair ("u", 1) exist simultaneously. -/
theorem double_borrow_creates_two_loans :
    ((postBorrow c3State "u" 1 100 0).2
      = BorrowResult.ok (mkLoan 1 "u" 1 0 100 none "borrowed")) ∧
    ((postBorrow (postBorrow c3State "u" 1 100 0).1 "u" 1 200 5).2
      = BorrowResult.ok (mkLoan 2 "u" 1 5 200 none "borrowed")) ∧
    ((postBorrow (postBorrow c3State "u" 1 100 0).1 "u" 1 200 5).1.borrowedBooks.countP
        (fun x => x.userId == "u" && x.bookId == 1 && x.status == "borrowed")
      = 2) :=
  ⟨rfl, rfl, rfl⟩

/-- State used to witness the amended C3: one borrowed-status loan of
book 1 by user "u" already exists and one copy is still available. -/
def c3LoanState : DB :=
  { users := ["u"]
    books := [mkBook 1 10 2 1]
    borrowedBooks := [mkLoan 1 "u" 1 0 100 none "borrowed"]
    purchases := []
    nextBookId := 2
    nextBorrowId := 2
    nextPurchaseId := 1 }

/-- Witness for the amended C3 theorem at a concrete state. -/
theorem postBorrow_allows_second_borrow_witness :
    2 ≤ (postBorrow c3LoanState "u" 1 200 5).1.borrowedBooks.countP
      (fun x => x.userId == "u" && x.bookId == 1 && x.status == "borrowed") :=
  (postBorrow_allows_second_borrow c3LoanState "u" 1 200 5 (mkBook 1 10 2 1)
    (mkLoan 1 "u" 1 0 100 none "borrowed") rfl rfl (by decide)
    (by decide) rfl rfl rfl).2.2

/-! ### C1 — copy-count bounds under borrow/return sequences -/

/-- The books table after `borrowBook`, whether or not the loan insert
succeeds: the decrement has run unconditionally. -/
theorem borrowBook_fst_books (s : DB) (u : String) (bid : Nat) (d n : Int) :
    (borrowBook s u bid d n).1.books = updateWhere (fun b => b.id == bid)
      (fun b => { b with availableCopies := b.availableCopies - 1 }) s.books := by
  unfold borrowBook
  dsimp only
  split
  · rfl
  · rfl

/-- The borrow route either leaves the books table alone (rejection) or,
having seen a book with nonzero availableCopies, decrements it. -/
theorem postBorrow_books_shape (s : DB) (u : String) (bid : Nat) (d n : Int) :
    (postBorrow s u bid d n).1.books = s.books ∨
    (∃ bk, getBookById s bid = some bk ∧ ¬ bk.availableCopies = 0 ∧
      (postBorrow s u bid d n).1.books = updateWhere (fun b => b.id == bid)
        (fun b => { b with availableCopies := b.availableCopies - 1 }) s.books) := by
  unfold postBorrow
  cases hbk : getBookById s bid with
  | none => exact Or.inl rfl
  | some bk =>
    dsimp only
    by_cases h0 : (bk.availableCopies == 0) = true
    · rw [if_pos h0]
      exact Or.inl rfl
    · rw [if_neg h0]
      refine Or.inr ⟨bk, rfl, by simpa using h0, ?_⟩
      rcases hb : borrowBook s u bid d n with ⟨s1, r⟩
      have h := borrowBook_fst_books s u bid d n
      rw [hb] at h
      cases r
      · simpa using h
      · simpa using h

/-- One borrow request preserves distinct book ids and nonnegative
availableCopies (the route only lets the decrement run on a book whose
count it saw to be nonzero). -/
theorem postBorrow_preserves_inv (s : DB) (u : String) (bid : Nat)
    (d n : Int) (hnd : booksNodup s) (hnn : copiesNonneg s) :
    booksNodup (postBorrow s u bid d n).1 ∧
      copiesNonneg (postBorrow s u bid d n).1 := by
  rcases postBorrow_books_shape s u bid d n with h | ⟨bk, hbk, h0, h⟩
  · constructor
    · unfold booksNodup at *
      rw [h]
      exact hnd
    · intro b hb
      rw [h] at hb
      exact hnn b hb
  · have hbk2 : s.books.find? (fun b => b.id == bid) = some bk := hbk
    have hbkmem := List.mem_of_find?_eq_some hbk2
    have hbkid : bk.id = bid := by simpa using List.find?_some hbk2
    constructor
    · unfold booksNodup at *
      rw [h, updateWhere_map_eq
        (p := fun b : Book => b.id == bid)
        (f := fun b : Book =>
          { b with availableCopies := b.availableCopies - 1 })
        (fun b : Book => b.id) (fun x => rfl) s.books]
      exact hnd
    · intro b hb
      rw [h] at hb
      rcases mem_updateWhere hb with ⟨a, ha, rfl⟩
      by_cases hp : (a.id == bid) = true
      · rw [if_pos hp]
        have hinj := List.inj_on_of_nodup_map hnd
        have hab : a = bk := by
          apply hinj ha hbkmem
          rw [beq_iff_eq] at hp
          rw [hp, hbkid]
        show 0 ≤ a.availableCopies - 1
        have h1 := hnn a ha
        have h2 : ¬ a.availableCopies = 0 := by
          rw [hab]
          exact h0
        omega
      · rw [if_neg hp]
        exact hnn a ha

/-- One return request preserves distinct book ids and nonnegative
availableCopies (it only ever increments). -/
theorem postReturn_preserves_inv (s : DB) (i : Nat) (n : Int)
    (hnd : booksNodup s) (hnn : copiesNonneg s) :
    booksNodup (postReturn s i n).1 ∧ copiesNonneg (postReturn s i n).1 := by
  show booksNodup (returnBook s i n) ∧ copiesNonneg (returnBook s i n)
  unfold returnBook
  cases hf : s.borrowedBooks.find? (fun l => l.id == i) with
  | none => exact ⟨hnd, hnn⟩
  | some borrowed =>
    constructor
    · unfold booksNodup at *
      dsimp only
      rw [updateWhere_map_eq
        (p := fun b : Book => b.id == borrowed.bookId)
        (f := fun b : Book =>
          { b with availableCopies := b.availableCopies + 1 })
        (fun b : Book => b.id) (fun x => rfl) s.books]
      exact hnd
    · intro b hb
      dsimp only at hb
      rcases mem_updateWhere hb with ⟨a, ha, rfl⟩
      by_cases hp : (a.id == borrowed.bookId) = true
      · rw [if_pos hp]
        show 0 ≤ a.availableCopies + 1
        have := hnn a ha
        omega
      · rw [if_neg hp]
        exact hnn a ha

/-- C1 (amended): starting from a state with distinct book ids and
nonnegative copy counts, every sequence of borrow/return requests keeps
`0 ≤ availableCopies` for every book — the lower bound of the claimed
invariant is preserved.  (The upper bound `availableCopies ≤ totalCopies`
is NOT preserved: see the double-return counterexample.) -/
theorem borrow_return_preserves_nonneg (s : DB) (ops : List Op)
    (hnd : booksNodup s) (hnn : copiesNonneg s) :
    copiesNonneg (applyOps s ops) := by
  induction ops generalizing s with
  | nil => exact hnn
  | cons op ops ih =>
    cases op with
    | borrow u b d n =>
      exact ih _ (postBorrow_preserves_inv s u b d n hnd hnn).1
        (postBorrow_preserves_inv s u b d n hnd hnn).2
    | ret i n =>
      exact ih _ (postReturn_preserves_inv s i n hnd hnn).1
        (postReturn_preserves_inv s i n hnd hnn).2

/-- State used for C1: a single book with 1 of 1 copies available. -/
def c1State : DB :=
  { users := ["u"]
    books := [mkBook 1 10 1 1]
    borrowedBooks := []
    purchases := []
    nextBookId := 2
    nextBorrowId := 1
    nextPurchaseId := 1 }

/-- Operation sequence for C1: one borrow, then the resulting loan is
returned twice. -/
def c1Ops : List Op := [Op.borrow "u" 1 100 0, Op.ret 1 10, Op.ret 1 20]

/-- Counterexample to C1 as stated: from a valid state with
availableCopies = totalCopies = 1, borrowing once and then returning the
same loan twice leaves availableCopies = 2 > totalCopies = 1, so the
upper half of the invariant does not hold after every borrow/return
sequence. -/
theorem double_return_exceeds_totalCopies :
    (c1State.books.map (fun b => (b.availableCopies, b.totalCopies))
      = [(1, 1)]) ∧
    ((applyOps c1State c1Ops).books.map
        (fun b => (b.availableCopies, b.totalCopies)) = [(2, 1)]) ∧
    ¬ (∀ b ∈ (applyOps c1State c1Ops).books,
        0 ≤ b.availableCopies ∧ b.availableCopies ≤ b.totalCopies) := by
  refine ⟨rfl, rfl, by decide⟩

/-- Witness for the amended C1 theorem on the concrete scenario. -/
theorem borrow_return_preserves_nonneg_witness :
    copiesNonneg (applyOps c1State c1Ops) :=
  borrow_return_preserves_nonneg c1State c1Ops
    (by unfold booksNodup; decide) (by unfold copiesNonneg; decide)

/-! ### C8 — admin statistics -/

/-- The spec's stats scenario, with "now" = 0: two books, loan 1 taken
out today (borrowedAt 0, due in 14 days), loan 2 from last month
(borrowedAt 30 days ago) overdue (due 16 days ago) and still borrowed,
and one purchase made today at price 9.99. -/
def c8State : DB :=
  { users := ["u"]
    books := [mkBook 1 20 1 1, mkBook 2 30 1 0]
    borrowedBooks := [mkLoan 1 "u" 1 0 (14 * msPerDay) none "borrowed",
      mkLoan 2 "u" 2 (-(30 * msPerDay)) (-(16 * msPerDay)) none "borrowed"]
    purchases := [mkPurchase 1 "u" 1 (999 / 100) 0]
    nextBookId := 3
    nextBorrowId := 3
    nextPurchaseId := 2 }

/-- C8: on the spec's scenario (2 books, 1 borrow today, 1 overdue loan
from last month, 1 purchase today of price 9.99) the stats endpoint
answers borrowedToday = 2 (the date filter is commented out, so every
loan row ever created is counted), overdue = 2 (the dueDate < now filter
is commented out, so every still-borrowed loan is counted), and
revenueToday = 1847 (a hard-coded placeholder) — not the 1/1/9.99 the
claim requires. -/
theorem getAdminStats_on_example :
    getAdminStats c8State =
      { totalBooks := 2
        totalUsers := 1
        borrowedToday := 2
        overdue := 2
        revenueToday := 1847 } ∧
    ¬ ((getAdminStats c8State).borrowedToday = 1 ∧
        (getAdminStats c8State).overdue = 1 ∧
        (getAdminStats c8State).revenueToday = 999 / 100) := by
  refine ⟨rfl, ?_⟩
  intro h
  exact absurd h.1 (by decide)

/-! ### C9 — createBook -/

/-- Book already on the shelf for the C9 scenario, with isbn "978". -/
def c9Book : Book := { mkBook 1 10 1 1 with isbn := some "978" }

/-- State used for C9: one existing book whose isbn is "978". -/
def c9State : DB :=
  { users := []
    books := [c9Book]
    borrowedBooks := []
    purchases := []
    nextBookId := 2
    nextBorrowId := 1
    nextPurchaseId := 1 }

/-- Insert payload violating both range rules of the claim:
totalCopies 0 (< 1) and price -5 (< 0); availableCopies omitted. -/
def c9Bad : InsertBook :=
  { title := "t", author := "a", category := "c", price := -5,
    totalCopies := some 0 }

/-- Insert payload giving totalCopies 5 but omitting availableCopies. -/
def c9Partial : InsertBook :=
  { title := "t", author := "a", category := "c", price := 3,
    totalCopies := some 5 }

/-- Insert payload whose isbn collides with the shelved book's "978". -/
def c9Dup : InsertBook :=
  { title := "t", author := "a", category := "c", price := 3,
    isbn := some "978" }

/-- C9 (amended): `createBook` performs no range validation — the only
failure is the isbn unique constraint (surfaced as a generic error, not
a ValidationError) — and a book created without an explicit
availableCopies gets the column default 1, NOT totalCopies. -/
theorem createBook_defaults_and_isbn_unique (s : DB) (book : InsertBook) :
    (∀ i, book.isbn = some i →
      s.books.any (fun b => b.isbn == some i) = true →
      createBook s book = (s, none)) ∧
    ((∀ i, book.isbn = some i →
        s.books.any (fun b => b.isbn == some i) = false) →
      ∃ nb, createBook s book =
        ({ s with books := s.books ++ [nb], nextBookId := s.nextBookId + 1 },
          some nb) ∧
        nb.availableCopies = book.availableCopies.getD 1 ∧
        nb.totalCopies = book.totalCopies.getD 1 ∧
        nb.price = book.price ∧ nb.isbn = book.isbn) := by
  constructor
  · intro i hi hcol
    unfold createBook
    rw [hi]
    dsimp only
    rw [hcol]
    rfl
  · intro hfree
    unfold createBook
    cases hi : book.isbn with
    | none =>
      dsimp only
      exact ⟨_, rfl, rfl, rfl, rfl, rfl⟩
    | some i =>
      dsimp only
      rw [hfree i hi]
      exact ⟨_, rfl, rfl, rfl, rfl, rfl⟩

/-- Counterexample to C9 as stated: a payload with totalCopies 0 (< 1)
and price -5 (< 0) is accepted without any ValidationError, and a
payload with totalCopies 5 that omits availableCopies yields a book with
availableCopies 1, not 5. -/
theorem createBook_no_validation :
    ((createBook c9State c9Bad).2.map (fun b => (b.totalCopies, b.price))
      = some (0, -5)) ∧
    ((createBook c9State c9Partial).2.map
        (fun b => (b.availableCopies, b.totalCopies)) = some (1, 5)) ∧
    ((1 : Int) ≠ 5) := by
  refine ⟨rfl, rfl, by decide⟩

/-- Witness for the amended C9 theorem: the duplicate isbn "978" is
rejected; the payload omitting availableCopies is accepted with
availableCopies = 1. -/
theorem createBook_defaults_and_isbn_unique_witness :
    (createBook c9State c9Dup = (c9State, none)) ∧
    (∃ nb, createBook c9State c9Partial =
      ({ c9State with books := c9State.books ++ [nb], nextBookId := c9State.nextBookId + 1 }, some nb) ∧
      nb.availableCopies = c9Partial.availableCopies.getD 1 ∧
      nb.totalCopies = c9Partial.totalCopies.getD 1 ∧
      nb.price = c9Partial.price ∧ nb.isbn = c9Partial.isbn) :=
  ⟨(createBook_defaults_and_isbn_unique c9State c9Dup).1 "978" rfl (by decide),
    (createBook_defaults_and_isbn_unique c9State c9Partial).2
      (fun i h => by simp [c9Partial] at h)⟩

end LibraryHub
